import Mathlib

/-!
Verification of the EcoLogix vehicle-overload training script
(`ml-model/train_model.py`) against its natural-language specification.

The script is shallowly embedded: each record field becomes a rational
number (the Python code computes with IEEE floats, but the claims under
scrutiny are stated over exact real/rational arithmetic), the random
draws of `np.random.uniform(a, b)` become explicit parameters constrained
to lie in the documented range `[a, b)`, pandas dataframes become
association lists from column names to lists of extended values (which
can be null or infinite, so that the null/infinity checks of
`validate_data` are expressible), and Python exceptions become `Except`.
-/

namespace EcoLogix

/-- Constant `RANDOM_STATE = 42` from the configuration block of the script. -/
def RANDOM_STATE : ℕ := 42

/-- Constant `N_SAMPLES = 1000` from the configuration block of the script. -/
def N_SAMPLES : ℕ := 1000

/-- A cell value of a pandas dataframe column as used by this script:
either null (NaN), positive or negative infinity, or a finite number. -/
inductive EVal where
  | null : EVal
  | pinf : EVal
  | ninf : EVal
  | fin  : ℚ → EVal
deriving DecidableEq, Repr

/-- Predicate `pd.isnull` on one cell. -/
def EVal.isNull : EVal → Bool
  | .null => true
  | _ => false

/-- Predicate `np.isinf` on one cell (false on NaN, as in numpy). -/
def EVal.isInf : EVal → Bool
  | .pinf => true
  | .ninf => true
  | _ => false

/-- The elementwise comparison `v < c` of a dataframe cell against a
constant, with IEEE semantics: NaN compares false, `-inf < c` is true. -/
def EVal.ltQ : EVal → ℚ → Bool
  | .fin q, c => decide (q < c)
  | .ninf, _ => true
  | _, _ => false

/-- The elementwise comparison `v > c` of a dataframe cell against a
constant, with IEEE semantics: NaN compares false, `inf > c` is true. -/
def EVal.gtQ : EVal → ℚ → Bool
  | .fin q, c => decide (c < q)
  | .pinf, _ => true
  | _, _ => false

/-- One vehicle observation record: the eight columns of the dataset
built by the script (seven features plus the binary label). -/
structure Record where
  current_load : ℚ
  max_load : ℚ
  load_ratio : ℚ
  suspension : ℚ
  tire_pressure : ℚ
  weight : ℚ
  speed : ℚ
  is_overloaded : ℚ
deriving DecidableEq, Repr

/-- The raw uniform draws consumed for one record of
`generate_normal_vehicle_data`: one draw per entry of the `data` dict
(lines 51–58 of the script). -/
structure RawNormal where
  current_load : ℚ
  max_load : ℚ
  suspension : ℚ
  tire_pressure : ℚ
  weight : ℚ
  speed : ℚ
deriving DecidableEq, Repr

/-- The documented draw ranges of `generate_normal_vehicle_data`:
`uniform(2,8)`, `uniform(10,15)`, `uniform(70,100)`, `uniform(28,35)`,
`uniform(3000,8000)`, `uniform(30,80)`; numpy draws in `[a, b)`. -/
def RawNormal.InRange (r : RawNormal) : Prop :=
  2 ≤ r.current_load ∧ r.current_load < 8 ∧
  10 ≤ r.max_load ∧ r.max_load < 15 ∧
  70 ≤ r.suspension ∧ r.suspension < 100 ∧
  28 ≤ r.tire_pressure ∧ r.tire_pressure < 35 ∧
  3000 ≤ r.weight ∧ r.weight < 8000 ∧
  30 ≤ r.speed ∧ r.speed < 80

/-- One record of `generate_normal_vehicle_data` (lines 51–72):
compute `load_ratio = current_load / max_load * 100`, clip it at 95
(`clip(upper=95)` is `min · 95`), recompute
`current_load = load_ratio * max_load / 100`, and label with 0. -/
def mkNormalRecord (r : RawNormal) : Record :=
  let ratio0 := r.current_load / r.max_load * 100
  let ratio := min ratio0 95
  { current_load := ratio * r.max_load / 100
    max_load := r.max_load
    load_ratio := ratio
    suspension := r.suspension
    tire_pressure := r.tire_pressure
    weight := r.weight
    speed := r.speed
    is_overloaded := 0 }

/-- The same generator with the clip-and-recompute step (lines 66–67)
removed: `load_ratio` is the raw ratio and `current_load` stays the
drawn value.  Used to state the refinement claim about the clip being
an identity on the documented draw ranges. -/
def mkNormalRecordNoClip (r : RawNormal) : Record :=
  { current_load := r.current_load
    max_load := r.max_load
    load_ratio := r.current_load / r.max_load * 100
    suspension := r.suspension
    tire_pressure := r.tire_pressure
    weight := r.weight
    speed := r.speed
    is_overloaded := 0 }

/-- Function `generate_normal_vehicle_data`, parametrised by the list of raw
draws (one `RawNormal` per generated row). -/
def generate_normal_vehicle_data (draws : List RawNormal) : List Record :=
  draws.map mkNormalRecord

/-- The raw uniform draws consumed for one record of
`generate_overloaded_vehicle_data`: the five entries of the `data`
dict (lines 91–97) plus the directly drawn `load_ratio` (line 102). -/
structure RawOverloaded where
  max_load : ℚ
  suspension : ℚ
  tire_pressure : ℚ
  weight : ℚ
  speed : ℚ
  load_ratio : ℚ
deriving DecidableEq, Repr

/-- The documented draw ranges of `generate_overloaded_vehicle_data`:
`uniform(10,15)`, `uniform(20,60)`, `uniform(20,45)`,
`uniform(5000,10000)`, `uniform(50,120)`, and `uniform(105,160)` for
the ratio; numpy draws in `[a, b)`. -/
def RawOverloaded.InRange (r : RawOverloaded) : Prop :=
  10 ≤ r.max_load ∧ r.max_load < 15 ∧
  20 ≤ r.suspension ∧ r.suspension < 60 ∧
  20 ≤ r.tire_pressure ∧ r.tire_pressure < 45 ∧
  5000 ≤ r.weight ∧ r.weight < 10000 ∧
  50 ≤ r.speed ∧ r.speed < 120 ∧
  105 ≤ r.load_ratio ∧ r.load_ratio < 160

/-- One record of `generate_overloaded_vehicle_data` (lines 91–110):
`load_ratio` is drawn in `[105, 160)`,
`current_load = (load_ratio / 100) * max_load`, label 1. -/
def mkOverloadedRecord (r : RawOverloaded) : Record :=
  { current_load := r.load_ratio / 100 * r.max_load
    max_load := r.max_load
    load_ratio := r.load_ratio
    suspension := r.suspension
    tire_pressure := r.tire_pressure
    weight := r.weight
    speed := r.speed
    is_overloaded := 1 }

/-- Function `generate_overloaded_vehicle_data`, parametrised by the raw draws. -/
def generate_overloaded_vehicle_data (draws : List RawOverloaded) : List Record :=
  draws.map mkOverloadedRecord

/-- Function `create_synthetic_dataset` before the final shuffle (lines 129–137):
`n_normal = n // 2` normal rows followed by `n - n_normal` overloaded
rows, concatenated with `pd.concat`.  The shuffle of line 140 is
modelled separately by `sample_frac1`. -/
def create_synthetic_dataset (nd : List RawNormal) (od : List RawOverloaded) :
    List Record :=
  generate_normal_vehicle_data nd ++ generate_overloaded_vehicle_data od

/-- Shuffle `df.sample(frac=1, random_state=...)` (line 140): the resampled
frame reads the rows of `l` in the order of an index list `idx`; for
`frac=1` pandas uses a permutation of `0, ..., len(l)-1` drawn from the
seeded RNG, which we keep as a parameter. -/
def sample_frac1 (l : List Record) (idx : List ℕ) : List Record :=
  idx.filterMap (fun i => l[i]?)

/-! ## Dataframes and `validate_data` -/

/-- A pandas dataframe as this script uses it: an association list from
column names to columns of cell values.  All columns of the script are
numeric, so every cell is an `EVal`. -/
def Df : Type := List (String × List EVal)

instance : DecidableEq Df := by unfold Df; infer_instance

/-- Accessor `df.columns`. -/
def Df.columns (df : Df) : List String := df.map Prod.fst

/-- Accessor `df[name]`: the column of that name (the script only reads columns
whose presence `validate_data` has already checked, so a missing column
yields the empty column in this model). -/
def Df.col (df : Df) (name : String) : List EVal :=
  match df.find? (fun p => p.1 == name) with
  | some p => p.2
  | none => []

/-- The `required_columns` list of `validate_data` (lines 171–172). -/
def requiredColumns : List String :=
  ["current_load", "max_load", "load_ratio", "suspension",
   "tire_pressure", "weight", "speed", "is_overloaded"]

/-- Computation `missing_columns = [col for col in required_columns if col not in
df.columns]` (line 174). -/
def missingColumns (df : Df) : List String :=
  requiredColumns.filter (fun c => !(df.columns.contains c))

/-- Check `df.isnull().any().any()` (line 179). -/
def hasNullB (df : Df) : Bool :=
  df.any (fun p => p.2.any EVal.isNull)

/-- Check `np.isinf(df[numeric_cols]).any().any()` (line 185); every column
of this dataset is numeric. -/
def hasInfB (df : Df) : Bool :=
  df.any (fun p => p.2.any EVal.isInf)

/-- Check `(df['suspension'] < 0).any() or (df['suspension'] > 100).any()`
(line 189). -/
def suspBadB (df : Df) : Bool :=
  (df.col "suspension").any (fun v => v.ltQ 0) ||
  (df.col "suspension").any (fun v => v.gtQ 100)

/-- Check `(df['tire_pressure'] < 0).any() or (df['tire_pressure'] > 100).any()`
(line 192).  Note the code checks the range `[0, 100]`, although its
error message speaks of positivity. -/
def tireBadB (df : Df) : Bool :=
  (df.col "tire_pressure").any (fun v => v.ltQ 0) ||
  (df.col "tire_pressure").any (fun v => v.gtQ 100)

/-- Check `(df['current_load'] < 0).any() or (df['max_load'] < 0).any()`
(line 195). -/
def loadBadB (df : Df) : Bool :=
  (df.col "current_load").any (fun v => v.ltQ 0) ||
  (df.col "max_load").any (fun v => v.ltQ 0)

/-- Check `len(df['is_overloaded'].value_counts()) < 2` (lines 199–200):
`value_counts` has one entry per distinct (non-null) value, so its
length is the number of distinct values; nulls were rejected earlier. -/
def labelBadB (df : Df) : Bool :=
  decide ((df.col "is_overloaded").dedup.length < 2)

/-- Function `validate_data` (lines 155–204): the sequence of checks, each
raising `ValueError` with its message; returns `True` when all pass. -/
def validate_data (df : Df) : Except String Bool :=
  if !(missingColumns df).isEmpty then
    .error "Missing required columns"
  else if hasNullB df then
    .error "Dataset contains null values"
  else if hasInfB df then
    .error "Dataset contains infinite values"
  else if suspBadB df then
    .error "Suspension values must be between 0 and 100"
  else if tireBadB df then
    .error "Tire pressure values must be positive"
  else if loadBadB df then
    .error "Load values must be positive"
  else if labelBadB df then
    .error "Dataset must contain both classes (0 and 1)"
  else
    .ok true

/-- The defect disjunction that `validate_data` actually rejects:
missing required column, null, infinity, suspension outside `[0,100]`,
tire pressure outside `[0,100]`, negative `current_load` or `max_load`,
or fewer than two distinct label values. -/
def hasDefect (df : Df) : Bool :=
  !(missingColumns df).isEmpty || hasNullB df || hasInfB df ||
  suspBadB df || tireBadB df || loadBadB df || labelBadB df

/-- The defect disjunction exactly as claim C3 words it (difference
from `hasDefect`: tire pressure must be *positive*, and *both* label
values 0 and 1 must be present). -/
def hasDefectClaimed (df : Df) : Bool :=
  !(missingColumns df).isEmpty || hasNullB df || hasInfB df ||
  suspBadB df ||
  (df.col "tire_pressure").any (fun v => !(v.gtQ 0)) ||
  loadBadB df ||
  !((df.col "is_overloaded").contains (EVal.fin 0) &&
    (df.col "is_overloaded").contains (EVal.fin 1))

/-- Conversion of a list of generated records to the dataframe handed
to `validate_data`: one column per record field. -/
def toDf (l : List Record) : Df :=
  [("current_load", l.map (fun r => EVal.fin r.current_load)),
   ("max_load", l.map (fun r => EVal.fin r.max_load)),
   ("load_ratio", l.map (fun r => EVal.fin r.load_ratio)),
   ("suspension", l.map (fun r => EVal.fin r.suspension)),
   ("tire_pressure", l.map (fun r => EVal.fin r.tire_pressure)),
   ("weight", l.map (fun r => EVal.fin r.weight)),
   ("speed", l.map (fun r => EVal.fin r.speed)),
   ("is_overloaded", l.map (fun r => EVal.fin r.is_overloaded))]

/-! ## Feature extraction, scaling and the main pipeline -/

/-- The `feature_names` list assembled by `main` (lines 498–499). -/
def feature_names_main : List String :=
  ["current_load", "max_load", "load_ratio", "suspension",
   "tire_pressure", "weight", "speed"]

/-- Reading one named feature off a record. -/
def colOfName (name : String) (r : Record) : ℚ :=
  if name = "current_load" then r.current_load
  else if name = "max_load" then r.max_load
  else if name = "load_ratio" then r.load_ratio
  else if name = "suspension" then r.suspension
  else if name = "tire_pressure" then r.tire_pressure
  else if name = "weight" then r.weight
  else if name = "speed" then r.speed
  else 0

/-- One row of the feature matrix `X = df[feature_names].values`
(line 501): the seven features in the order of `feature_names`. -/
def featureRow (r : Record) : List ℚ :=
  [r.current_load, r.max_load, r.load_ratio, r.suspension,
   r.tire_pressure, r.weight, r.speed]

/-- Extraction `X = df[feature_names].values; y = df['is_overloaded'].values`
(lines 501–502), in state-passing form: the extraction returns the
features, the labels, and the dataframe it leaves behind. -/
def prepare_features (l : List Record) :
    (List (List ℚ) × List ℚ) × List Record :=
  ((l.map featureRow, l.map (fun r => r.is_overloaded)), l)

/-- Function `validate_data` in state-passing form: the result together with the
dataframe the function leaves behind.  Every pandas operation the
function performs (`isnull`, `isinf`, elementwise comparison,
`value_counts`) reads the frame without writing it, so the frame is
threaded through unchanged. -/
def validate_dataS (df : Df) : Except String Bool × Df :=
  (validate_data df, df)

/-- The state of a fitted `StandardScaler`: per-feature centre (the
training mean) and scale (the training standard deviation).  The
standard deviation is the square root of the variance; the square root
function on the script's floats is kept as an explicit parameter. -/
structure Scaler where
  mean : List ℚ
  scale : List ℚ
deriving DecidableEq, Repr

/-- Mean of a list of rationals. -/
def qmean (l : List ℚ) : ℚ := l.sum / l.length

/-- Population variance of a list of rationals (as `StandardScaler`
computes it). -/
def qvar (l : List ℚ) : ℚ :=
  ((l.map (fun x => (x - qmean l) ^ 2)).sum) / l.length

/-- Column `j` of a row-major matrix. -/
def colOf (X : List (List ℚ)) (j : ℕ) : List ℚ :=
  X.map (fun row => row.getD j 0)

/-- Fitting `StandardScaler().fit(X)`: record the per-column mean and standard
deviation of `X`.  `sq` is the square-root function. -/
def fitScaler (sq : ℚ → ℚ) (X : List (List ℚ)) : Scaler :=
  let k := (X.headD []).length
  { mean := (List.range k).map (fun j => qmean (colOf X j))
    scale := (List.range k).map (fun j => sq (qvar (colOf X j))) }

/-- Transform `scaler.transform` on one row: `(x - mean) / scale` per feature. -/
def Scaler.transformRow (s : Scaler) (row : List ℚ) : List ℚ :=
  (row.zip (s.mean.zip s.scale)).map (fun p => (p.1 - p.2.1) / p.2.2)

/-- Transform `scaler.transform(X)` on a matrix. -/
def Scaler.transform (s : Scaler) (X : List (List ℚ)) : List (List ℚ) :=
  X.map s.transformRow

/-- Row selection by index list: how `train_test_split` materialises
each side of the split from the rows of its input. -/
def selectRows {α : Type} (X : List α) (idx : List ℕ) : List α :=
  idx.filterMap (fun i => X[i]?)

/-- The four hardcoded test cases of `test_predictions` (lines
396–433), as (current_load, max_load, suspension, tire_pressure,
weight, speed). -/
def test_cases : List (ℚ × ℚ × ℚ × ℚ × ℚ × ℚ) :=
  [(8, 12, 85, 32, 5000, 60),
   (13, 12, 70, 30, 6000, 75),
   (18, 12, 40, 25, 8000, 90),
   (11.5, 12, 65, 28, 5500, 70)]

/-- The feature vector `test_predictions` assembles for one test case
(lines 440–451): `load_ratio = current_load / max_load * 100` is
computed and inserted third. -/
def testCaseFeatures (c : ℚ × ℚ × ℚ × ℚ × ℚ × ℚ) : List ℚ :=
  [c.1, c.2.1, c.1 / c.2.1 * 100, c.2.2.1, c.2.2.2.1, c.2.2.2.2.1,
   c.2.2.2.2.2]

/-- The dataflow of `main` steps 3–5 plus the feature scaling of
`test_predictions` (lines 498–521 and 452–454).  The split indices of
`train_test_split` are parameters (the split is seeded and stratified,
but only which rows land where matters here), as is the square-root
function of the scaler. -/
structure MainResult where
  X : List (List ℚ)
  y : List ℚ
  X_train : List (List ℚ)
  X_test : List (List ℚ)
  y_train : List ℚ
  y_test : List ℚ
  scaler : Scaler
  X_train_scaled : List (List ℚ)
  X_test_scaled : List (List ℚ)
  examples_scaled : List (List ℚ)
deriving Repr

/-- Function `main`, steps 3–5, followed by the scaling `test_predictions`
applies to its hardcoded examples: split the raw feature matrix, fit
the scaler on the training split only (`scaler.fit_transform(X_train)`),
and transform the test split and the example vectors with that same
fitted scaler (`scaler.transform`). -/
def main_pipeline (sq : ℚ → ℚ) (df : List Record)
    (trainIdx testIdx : List ℕ) : MainResult :=
  let X := df.map featureRow
  let y := df.map (fun r => r.is_overloaded)
  let X_train := selectRows X trainIdx
  let X_test := selectRows X testIdx
  let y_train := selectRows y trainIdx
  let y_test := selectRows y testIdx
  let scaler := fitScaler sq X_train
  { X := X, y := y
    X_train := X_train, X_test := X_test
    y_train := y_train, y_test := y_test
    scaler := scaler
    X_train_scaled := scaler.transform X_train
    X_test_scaled := scaler.transform X_test
    examples_scaled := scaler.transform (test_cases.map testCaseFeatures) }

/-! ## Hyperparameters and the saved configuration -/

/-- The constructor arguments of `RandomForestClassifier` that the
configuration records. -/
structure RFParams where
  n_estimators : ℕ
  max_depth : ℕ
  random_state : ℕ
deriving DecidableEq, Repr

/-- The hyperparameters `train_model` constructs the classifier with
(lines 235–241). -/
def train_model_params : RFParams :=
  { n_estimators := 100, max_depth := 10, random_state := RANDOM_STATE }

/-- The evaluation metrics dict built by `evaluate_model`
(lines 304–310). -/
structure Metrics where
  accuracy : ℚ
  precision : ℚ
  «recall» : ℚ
  f1_score : ℚ
  confusion_matrix : List (List ℕ)
deriving DecidableEq, Repr

/-- The JSON configuration object `save_model_artifacts` writes
(lines 347–360), as a function of its `feature_names` and `metrics`
arguments and of the wall-clock timestamp. -/
structure ModelConfig where
  model_name : String
  model_version : String
  model_type : String
  model_parameters : RFParams
  feature_names : List String
  training_date : String
  evaluation_metrics : Metrics
  scaler_type : String
deriving DecidableEq, Repr

/-- The configuration value built inside `save_model_artifacts`. -/
def save_config (feature_names : List String) (metrics : Metrics)
    (training_date : String) : ModelConfig :=
  { model_name := "Vehicle Overload Detection"
    model_version := "1.0.0"
    model_type := "RandomForestClassifier"
    model_parameters :=
      { n_estimators := 100, max_depth := 10, random_state := RANDOM_STATE }
    feature_names := feature_names
    training_date := training_date
    evaluation_metrics := metrics
    scaler_type := "StandardScaler" }

/-! ## Exception flow -/

/-- A Python `try: body ... except Exception as e: print(...); raise`
block: the printed log does not alter the outcome, and the bare `raise`
re-raises the same exception, so the block maps the body's outcome
through unchanged. -/
def tryLogReraise {E α : Type} (body : Except E α) : Except E α :=
  match body with
  | .ok a => .ok a
  | .error e => .error e

/-- The exception structure of `save_model_artifacts` (lines 335–374):
dump the model, dump the scaler, write the configuration file, in
order, inside one try/except that logs and re-raises. -/
def save_model_artifacts {E : Type} (dumpModel dumpScaler writeConfig :
    Except E Unit) : Except E Unit :=
  tryLogReraise (do
    dumpModel
    dumpScaler
    writeConfig)

/-- The exception structure of `main` (lines 486–544): the whole
pipeline runs inside one try/except that prints the error, prints a
traceback and re-raises. -/
def main_try {E α : Type} (pipeline : Except E α) : Except E α :=
  tryLogReraise pipeline

/-! ## Concrete inputs used as counterexamples and witnesses -/

/-- The range constraints `validate_data` enforces on one record of the
dataframe it accepts. -/
def RecordValid (r : Record) : Prop :=
  0 ≤ r.suspension ∧ r.suspension ≤ 100 ∧
  0 ≤ r.tire_pressure ∧ r.tire_pressure ≤ 100 ∧
  0 ≤ r.current_load ∧ 0 ≤ r.max_load

/-- A record with tire pressure exactly 0 (not positive, but inside the
range the code checks) and label 0. -/
def cexRecord0 : Record :=
  { current_load := 5, max_load := 12, load_ratio := 125 / 3,
    suspension := 80, tire_pressure := 0, weight := 5000, speed := 60,
    is_overloaded := 0 }

/-- A record with label 2: together with a label-0 record the column has
two distinct values, yet label 1 is absent. -/
def cexRecord2 : Record :=
  { current_load := 5, max_load := 12, load_ratio := 125 / 3,
    suspension := 80, tire_pressure := 30, weight := 5000, speed := 60,
    is_overloaded := 2 }

/-- The counterexample dataframe for claim C3: one tire pressure is 0
(hence not positive) and the label column holds `{0, 2}` (hence label 1
is absent), so the claimed characterisation demands a `ValueError`;
the code accepts it. -/
def cexDf : Df := toDf [cexRecord0, cexRecord2]

/-- A concrete tuple of draws for one normal record, inside all the
documented ranges. -/
def wNormal : RawNormal :=
  { current_load := 4, max_load := 12, suspension := 80,
    tire_pressure := 30, weight := 5000, speed := 60 }

/-- A concrete tuple of draws for one overloaded record, inside all the
documented ranges. -/
def wOver : RawOverloaded :=
  { max_load := 12, suspension := 40, tire_pressure := 30,
    weight := 7000, speed := 80, load_ratio := 120 }

/-! ## Basic lemmas about the embedding -/

@[simp] theorem EVal.isNull_fin (q : ℚ) : (EVal.fin q).isNull = false := rfl

@[simp] theorem EVal.isInf_fin (q : ℚ) : (EVal.fin q).isInf = false := rfl

@[simp] theorem EVal.ltQ_fin (q c : ℚ) : (EVal.fin q).ltQ c = decide (q < c) := rfl

@[simp] theorem EVal.gtQ_fin (q c : ℚ) : (EVal.fin q).gtQ c = decide (c < q) := rfl

/-- A list holding two distinct elements deduplicates to length at
least two. -/
theorem two_le_dedup_length {α : Type} [DecidableEq α] {L : List α} {a b : α}
    (ha : a ∈ L) (hb : b ∈ L) (hab : a ≠ b) : 2 ≤ L.dedup.length := by
  have hcard : L.toFinset.card = L.dedup.length := List.card_toFinset L
  have h1 : 1 < L.toFinset.card :=
    Finset.one_lt_card.mpr
      ⟨a, List.mem_toFinset.mpr ha, b, List.mem_toFinset.mpr hb, hab⟩
  omega

/-- Reading the rows of `l` at the indices `0, ..., l.length - 1`
reproduces `l`. -/
theorem selectRows_range {α : Type} (l : List α) :
    selectRows l (List.range l.length) = l := by
  induction l with
  | nil => rfl
  | cons a t ih =>
    simp only [selectRows, List.length_cons, List.range_succ_eq_map,
      List.filterMap_cons, List.getElem?_cons_zero, List.filterMap_map]
    congr 1
    have hf : ((fun i => (a :: t)[i]?) ∘ Nat.succ) = fun i => t[i]? := by
      funext i; simp
    rw [hf]
    simpa [selectRows] using ih

/-- Reading rows at a permutation of `0, ..., l.length - 1` permutes
`l`. -/
theorem selectRows_perm {α : Type} (l : List α) (idx : List ℕ)
    (h : idx.Perm (List.range l.length)) : (selectRows l idx).Perm l := by
  have hp := h.filterMap (fun i => l[i]?)
  rw [show (List.range l.length).filterMap (fun i => l[i]?) = l from
    selectRows_range l] at hp
  exact hp

/-- Membership in a row selection implies membership in the source. -/
theorem mem_of_mem_selectRows {α : Type} {l : List α} {idx : List ℕ} {a : α}
    (h : a ∈ selectRows l idx) : a ∈ l := by
  rw [selectRows, List.mem_filterMap] at h
  obtain ⟨i, _, hget⟩ := h
  obtain ⟨hi, rfl⟩ := List.getElem?_eq_some.mp hget
  exact List.getElem_mem hi

/-- Unfolding lemma: `sample_frac1` is `selectRows` on records. -/
theorem sample_frac1_eq_selectRows (l : List Record) (idx : List ℕ) :
    sample_frac1 l idx = selectRows l idx := rfl

/-- Membership in the concatenated dataset comes from one of the two
generators. -/
theorem mem_create_synthetic_dataset {nd : List RawNormal}
    {od : List RawOverloaded} {rec : Record}
    (h : rec ∈ create_synthetic_dataset nd od) :
    (∃ r ∈ nd, rec = mkNormalRecord r) ∨
    (∃ r ∈ od, rec = mkOverloadedRecord r) := by
  rcases List.mem_append.mp h with h' | h'
  · left
    obtain ⟨r, hr, hrec⟩ := List.mem_map.mp h'
    exact ⟨r, hr, hrec.symm⟩
  · right
    obtain ⟨r, hr, hrec⟩ := List.mem_map.mp h'
    exact ⟨r, hr, hrec.symm⟩

/-- Acceptance: `validate_data` accepts a dataframe exactly when none of the seven
defect conditions it checks holds. -/
theorem validate_data_ok_iff (df : Df) :
    validate_data df = Except.ok true ↔ hasDefect df = false := by
  unfold validate_data hasDefect
  rcases Bool.eq_false_or_eq_true (missingColumns df).isEmpty with h1 | h1 <;>
    rcases Bool.eq_false_or_eq_true (hasNullB df) with h2 | h2 <;>
      rcases Bool.eq_false_or_eq_true (hasInfB df) with h3 | h3 <;>
        rcases Bool.eq_false_or_eq_true (suspBadB df) with h4 | h4 <;>
          rcases Bool.eq_false_or_eq_true (tireBadB df) with h5 | h5 <;>
            rcases Bool.eq_false_or_eq_true (loadBadB df) with h6 | h6 <;>
              rcases Bool.eq_false_or_eq_true (labelBadB df) with h7 | h7 <;>
                simp [h1, h2, h3, h4, h5, h6, h7]

/-- Rejection: `validate_data` raises exactly when one of the seven defect
conditions it checks holds. -/
theorem validate_data_error_iff (df : Df) :
    (∃ m, validate_data df = Except.error m) ↔ hasDefect df = true := by
  unfold validate_data hasDefect
  rcases Bool.eq_false_or_eq_true (missingColumns df).isEmpty with h1 | h1 <;>
    rcases Bool.eq_false_or_eq_true (hasNullB df) with h2 | h2 <;>
      rcases Bool.eq_false_or_eq_true (hasInfB df) with h3 | h3 <;>
        rcases Bool.eq_false_or_eq_true (suspBadB df) with h4 | h4 <;>
          rcases Bool.eq_false_or_eq_true (tireBadB df) with h5 | h5 <;>
            rcases Bool.eq_false_or_eq_true (loadBadB df) with h6 | h6 <;>
              rcases Bool.eq_false_or_eq_true (labelBadB df) with h7 | h7 <;>
                simp [h1, h2, h3, h4, h5, h6, h7]

theorem toDf_col_suspension (l : List Record) :
    (toDf l).col "suspension" = l.map (fun r => EVal.fin r.suspension) := rfl

theorem toDf_col_tire (l : List Record) :
    (toDf l).col "tire_pressure" = l.map (fun r => EVal.fin r.tire_pressure) := rfl

theorem toDf_col_current (l : List Record) :
    (toDf l).col "current_load" = l.map (fun r => EVal.fin r.current_load) := rfl

theorem toDf_col_max (l : List Record) :
    (toDf l).col "max_load" = l.map (fun r => EVal.fin r.max_load) := rfl

theorem toDf_col_label (l : List Record) :
    (toDf l).col "is_overloaded" = l.map (fun r => EVal.fin r.is_overloaded) := rfl

/-- A dataframe built from records that satisfy the range checks and
exhibit both labels passes `validate_data`. -/
theorem validate_toDf_ok (l : List Record)
    (hv : ∀ r ∈ l, RecordValid r)
    (h0 : ∃ r ∈ l, r.is_overloaded = 0)
    (h1 : ∃ r ∈ l, r.is_overloaded = 1) :
    validate_data (toDf l) = Except.ok true := by
  rw [validate_data_ok_iff]
  have hmiss : (missingColumns (toDf l)).isEmpty = true := rfl
  have hnull : hasNullB (toDf l) = false := by
    simp [hasNullB, toDf, List.any_map, Function.comp]
  have hinf : hasInfB (toDf l) = false := by
    simp [hasInfB, toDf, List.any_map, Function.comp]
  have hsusp : suspBadB (toDf l) = false := by
    simp only [suspBadB, toDf_col_suspension, Bool.or_eq_false_iff]
    constructor
    · rw [List.any_eq_false]
      intro v hv'
      obtain ⟨r, hr, rfl⟩ := List.mem_map.mp hv'
      have h := (hv r hr).1
      simp [EVal.ltQ]
      linarith
    · rw [List.any_eq_false]
      intro v hv'
      obtain ⟨r, hr, rfl⟩ := List.mem_map.mp hv'
      have h := (hv r hr).2.1
      simp [EVal.gtQ]
      linarith
  have htire : tireBadB (toDf l) = false := by
    simp only [tireBadB, toDf_col_tire, Bool.or_eq_false_iff]
    constructor
    · rw [List.any_eq_false]
      intro v hv'
      obtain ⟨r, hr, rfl⟩ := List.mem_map.mp hv'
      have h := (hv r hr).2.2.1
      simp [EVal.ltQ]
      linarith
    · rw [List.any_eq_false]
      intro v hv'
      obtain ⟨r, hr, rfl⟩ := List.mem_map.mp hv'
      have h := (hv r hr).2.2.2.1
      simp [EVal.gtQ]
      linarith
  have hload : loadBadB (toDf l) = false := by
    simp only [loadBadB, toDf_col_current, toDf_col_max, Bool.or_eq_false_iff]
    constructor
    · rw [List.any_eq_false]
      intro v hv'
      obtain ⟨r, hr, rfl⟩ := List.mem_map.mp hv'
      have h := (hv r hr).2.2.2.2.1
      simp [EVal.ltQ]
      linarith
    · rw [List.any_eq_false]
      intro v hv'
      obtain ⟨r, hr, rfl⟩ := List.mem_map.mp hv'
      have h := (hv r hr).2.2.2.2.2
      simp [EVal.ltQ]
      linarith
  have hlabel : labelBadB (toDf l) = false := by
    simp only [labelBadB, toDf_col_label, decide_eq_false_iff_not, not_lt]
    obtain ⟨r0, hr0, hl0⟩ := h0
    obtain ⟨r1, hr1, hl1⟩ := h1
    refine two_le_dedup_length (a := EVal.fin 0) (b := EVal.fin 1) ?_ ?_ ?_
    · exact List.mem_map.mpr ⟨r0, hr0, by rw [hl0]⟩
    · exact List.mem_map.mpr ⟨r1, hr1, by rw [hl1]⟩
    · simp
  simp [hasDefect, hmiss, hnull, hinf, hsusp, htire, hload, hlabel]

/-- A normal record drawn inside the documented ranges satisfies all
the range checks of `validate_data`. -/
theorem mkNormalRecord_valid (r : RawNormal) (h : r.InRange) :
    RecordValid (mkNormalRecord r) := by
  obtain ⟨hc1, hc2, hm1, hm2, hs1, hs2, ht1, ht2, hw1, hw2, hv1, hv2⟩ := h
  have hml : (0 : ℚ) < r.max_load := by linarith
  have hr0 : (0 : ℚ) ≤ r.current_load / r.max_load * 100 := by positivity
  have hmin : (0 : ℚ) ≤ min (r.current_load / r.max_load * 100) 95 :=
    le_min hr0 (by norm_num)
  refine ⟨?_, ?_, ?_, ?_, ?_, ?_⟩ <;> simp only [mkNormalRecord]
  · linarith
  · linarith
  · linarith
  · linarith
  · exact div_nonneg (mul_nonneg hmin (le_of_lt hml)) (by norm_num)
  · linarith

/-- An overloaded record drawn inside the documented ranges satisfies
all the range checks of `validate_data`. -/
theorem mkOverloadedRecord_valid (r : RawOverloaded) (h : r.InRange) :
    RecordValid (mkOverloadedRecord r) := by
  obtain ⟨hm1, hm2, hs1, hs2, ht1, ht2, hw1, hw2, hv1, hv2, hl1, hl2⟩ := h
  refine ⟨?_, ?_, ?_, ?_, ?_, ?_⟩ <;> simp only [mkOverloadedRecord]
  · linarith
  · linarith
  · linarith
  · linarith
  · have : (0 : ℚ) ≤ r.load_ratio / 100 := by positivity
    nlinarith
  · linarith

/-- Identity `a * ml / 100 / ml * 100 = a` for `ml ≠ 0`. -/
theorem ratio_roundtrip (a ml : ℚ) (h : ml ≠ 0) : a * ml / 100 / ml * 100 = a := by
  field_simp
  ring

/-- Identity `a / 100 * ml / ml * 100 = a` for `ml ≠ 0`. -/
theorem ratio_roundtrip' (a ml : ℚ) (h : ml ≠ 0) : a / 100 * ml / ml * 100 = a := by
  field_simp
  ring

/-! ## The claims -/

/-- C1: every record of `generate_normal_vehicle_data` has label 0 and
`load_ratio ≤ 95 < 100`; every record of
`generate_overloaded_vehicle_data` (whose ratio is drawn in
`[105, 160]`) has label 1 and `load_ratio ∈ [105, 160]`; hence in every
record of the combined (concatenated and shuffled) dataset,
`is_overloaded = 1` iff `load_ratio > 100`. -/
theorem overload_label_iff_ratio :
    (∀ r : RawNormal, (mkNormalRecord r).is_overloaded = 0 ∧
        (mkNormalRecord r).load_ratio ≤ 95) ∧
    (∀ r : RawOverloaded, 105 ≤ r.load_ratio → r.load_ratio ≤ 160 →
        (mkOverloadedRecord r).is_overloaded = 1 ∧
        105 ≤ (mkOverloadedRecord r).load_ratio ∧
        (mkOverloadedRecord r).load_ratio ≤ 160) ∧
    (∀ (nd : List RawNormal) (od : List RawOverloaded) (idx : List ℕ),
        (∀ r ∈ od, 105 ≤ r.load_ratio) →
        ∀ rec ∈ sample_frac1 (create_synthetic_dataset nd od) idx,
          (rec.is_overloaded = 1 ↔ 100 < rec.load_ratio)) := by
  refine ⟨?_, ?_, ?_⟩
  · intro r
    exact ⟨rfl, by simp only [mkNormalRecord]; exact min_le_right _ _⟩
  · intro r h1 h2
    exact ⟨rfl, by simpa [mkOverloadedRecord] using h1,
      by simpa [mkOverloadedRecord] using h2⟩
  · intro nd od idx hod rec hrec
    rcases mem_create_synthetic_dataset (mem_of_mem_selectRows hrec) with
      ⟨r, hr, rfl⟩ | ⟨r, hr, rfl⟩
    · have hle : (mkNormalRecord r).load_ratio ≤ 95 := by
        simp only [mkNormalRecord]; exact min_le_right _ _
      constructor
      · intro h
        exfalso
        simp only [mkNormalRecord] at h
        norm_num at h
      · intro h
        exfalso
        linarith
    · have h105 := hod r hr
      constructor
      · intro _
        show (100 : ℚ) < (mkOverloadedRecord r).load_ratio
        simp only [mkOverloadedRecord]
        linarith
      · intro _
        rfl

/-- Witness for C1: the overloaded and combined-dataset parts applied
at a concrete draw. -/
theorem overload_label_iff_ratio_witness :
    ((mkOverloadedRecord wOver).is_overloaded = 1 ∧
      105 ≤ (mkOverloadedRecord wOver).load_ratio ∧
      (mkOverloadedRecord wOver).load_ratio ≤ 160) ∧
    ((mkOverloadedRecord wOver).is_overloaded = 1 ↔
      100 < (mkOverloadedRecord wOver).load_ratio) :=
  ⟨overload_label_iff_ratio.2.1 wOver (by decide) (by decide),
   overload_label_iff_ratio.2.2 [] [wOver] [0]
     (by
       intro r hr
       simp only [List.mem_singleton] at hr
       subst hr
       decide)
     (mkOverloadedRecord wOver) (List.mem_singleton.mpr rfl)⟩

/-- C2: both generators re-establish
`load_ratio = current_load / max_load * 100` exactly (in rational
arithmetic) by recomputing `current_load` from the clipped or drawn
ratio, so the relation holds in every record of the dataset passed to
validation and training.  (`max_load` is drawn in `[10, 15)`, so it is
nonzero; the hypothesis records just that.) -/
theorem load_ratio_relation :
    (∀ r : RawNormal, r.max_load ≠ 0 →
        (mkNormalRecord r).load_ratio =
          (mkNormalRecord r).current_load / (mkNormalRecord r).max_load * 100) ∧
    (∀ r : RawOverloaded, r.max_load ≠ 0 →
        (mkOverloadedRecord r).load_ratio =
          (mkOverloadedRecord r).current_load / (mkOverloadedRecord r).max_load
            * 100) ∧
    (∀ (nd : List RawNormal) (od : List RawOverloaded) (idx : List ℕ),
        (∀ r ∈ nd, r.max_load ≠ 0) → (∀ r ∈ od, r.max_load ≠ 0) →
        ∀ rec ∈ sample_frac1 (create_synthetic_dataset nd od) idx,
          rec.load_ratio = rec.current_load / rec.max_load * 100) := by
  have hA : ∀ r : RawNormal, r.max_load ≠ 0 →
      (mkNormalRecord r).load_ratio =
        (mkNormalRecord r).current_load / (mkNormalRecord r).max_load * 100 := by
    intro r h
    simp only [mkNormalRecord]
    exact (ratio_roundtrip _ _ h).symm
  have hB : ∀ r : RawOverloaded, r.max_load ≠ 0 →
      (mkOverloadedRecord r).load_ratio =
        (mkOverloadedRecord r).current_load / (mkOverloadedRecord r).max_load
          * 100 := by
    intro r h
    simp only [mkOverloadedRecord]
    exact (ratio_roundtrip' _ _ h).symm
  refine ⟨hA, hB, ?_⟩
  intro nd od idx hnd hod rec hrec
  rcases mem_create_synthetic_dataset (mem_of_mem_selectRows hrec) with
    ⟨r, hr, rfl⟩ | ⟨r, hr, rfl⟩
  · exact hA r (hnd r hr)
  · exact hB r (hod r hr)

/-- Witness for C2: the relation evaluated on concrete draws of both
generators. -/
theorem load_ratio_relation_witness :
    ((mkNormalRecord wNormal).load_ratio =
      (mkNormalRecord wNormal).current_load / (mkNormalRecord wNormal).max_load
        * 100) ∧
    ((mkOverloadedRecord wOver).load_ratio =
      (mkOverloadedRecord wOver).current_load /
        (mkOverloadedRecord wOver).max_load * 100) ∧
    ((mkNormalRecord wNormal).load_ratio =
      (mkNormalRecord wNormal).current_load / (mkNormalRecord wNormal).max_load
        * 100) :=
  ⟨load_ratio_relation.1 wNormal (by decide),
   load_ratio_relation.2.1 wOver (by decide),
   load_ratio_relation.2.2 [wNormal] [] [0]
     (by
       intro r hr
       simp only [List.mem_singleton] at hr
       subst hr
       decide)
     (by intro r hr; simp at hr)
     (mkNormalRecord wNormal) (List.mem_singleton.mpr rfl)⟩

/-- C10: on the documented draw ranges (`current_load ∈ [2, 8]`,
`max_load ∈ [10, 15]`) the raw ratio is at most 80, so the clip at 95
and the recomputation of `current_load` are identities and
`generate_normal_vehicle_data` equals the generator with the
clip-and-recompute step removed. -/
theorem normal_clip_noop :
    (∀ r : RawNormal, 2 ≤ r.current_load → r.current_load ≤ 8 →
        10 ≤ r.max_load → r.max_load ≤ 15 →
        r.current_load / r.max_load * 100 ≤ 80 ∧
        mkNormalRecord r = mkNormalRecordNoClip r) ∧
    (∀ nd : List RawNormal,
        (∀ r ∈ nd, 2 ≤ r.current_load ∧ r.current_load ≤ 8 ∧
            10 ≤ r.max_load ∧ r.max_load ≤ 15) →
        generate_normal_vehicle_data nd = nd.map mkNormalRecordNoClip) := by
  have key : ∀ r : RawNormal, 2 ≤ r.current_load → r.current_load ≤ 8 →
      10 ≤ r.max_load → r.max_load ≤ 15 →
      r.current_load / r.max_load * 100 ≤ 80 ∧
      mkNormalRecord r = mkNormalRecordNoClip r := by
    intro r h1 h2 h3 h4
    have hml : (0 : ℚ) < r.max_load := by linarith
    have h80 : r.current_load / r.max_load * 100 ≤ 80 := by
      rw [div_mul_eq_mul_div, div_le_iff₀ hml]
      nlinarith
    refine ⟨h80, ?_⟩
    have h95 : r.current_load / r.max_load * 100 ≤ 95 := by linarith
    simp only [mkNormalRecord, mkNormalRecordNoClip, min_eq_left h95,
      Record.mk.injEq, and_true, true_and]
    field_simp
  refine ⟨key, ?_⟩
  intro nd h
  unfold generate_normal_vehicle_data
  apply List.map_congr_left
  intro r hr
  obtain ⟨h1, h2, h3, h4⟩ := h r hr
  exact (key r h1 h2 h3 h4).2

/-- Witness for C10: the clip is an identity on a concrete draw. -/
theorem normal_clip_noop_witness :
    (wNormal.current_load / wNormal.max_load * 100 ≤ 80 ∧
      mkNormalRecord wNormal = mkNormalRecordNoClip wNormal) ∧
    generate_normal_vehicle_data [wNormal] = [wNormal].map mkNormalRecordNoClip :=
  ⟨normal_clip_noop.1 wNormal (by decide) (by decide) (by decide) (by decide),
   normal_clip_noop.2 [wNormal]
     (by
       intro r hr
       simp only [List.mem_singleton] at hr
       subst hr
       decide)⟩

/-- Counterexample for C3 as stated: `cexDf` contains a tire pressure
of 0 (not positive) and its label column is `{0, 2}` (label 1 absent),
so the claimed characterisation requires a `ValueError`; `validate_data`
accepts the dataframe, because its tire-pressure check only rejects
values outside `[0, 100]` and its label check only requires two
distinct values. -/
theorem validate_data_claim_counterexample :
    hasDefectClaimed cexDf = true ∧ validate_data cexDf = Except.ok true :=
  ⟨rfl, rfl⟩

/-- C3 (amended): `validate_data` raises a `ValueError` iff the input
has a missing required column, a null value, an infinite value, a
suspension outside `[0, 100]`, a tire pressure outside `[0, 100]`, a
negative `current_load` or `max_load`, or fewer than two distinct label
values; on every dataframe with none of these defects it returns
`True` without raising. -/
theorem validate_data_raises_iff (df : Df) :
    ((∃ m, validate_data df = Except.error m) ↔ hasDefect df = true) ∧
    (validate_data df = Except.ok true ↔ hasDefect df = false) :=
  ⟨validate_data_error_iff df, validate_data_ok_iff df⟩

/-- C4: for every `n_samples ≥ 2`, the dataset built by
`create_synthetic_dataset` (draws inside the documented ranges,
followed by the shuffle) passes `validate_data` without raising: every
error branch is unreachable on it. -/
theorem synthetic_dataset_validates (n : ℕ) (hn : 2 ≤ n)
    (nd : List RawNormal) (od : List RawOverloaded)
    (hndlen : nd.length = n / 2) (hodlen : od.length = n - n / 2)
    (hnd : ∀ r ∈ nd, r.InRange) (hod : ∀ r ∈ od, r.InRange)
    (idx : List ℕ) (hidx : idx.Perm (List.range n)) :
    validate_data (toDf (sample_frac1 (create_synthetic_dataset nd od) idx))
      = Except.ok true := by
  have hlen : (create_synthetic_dataset nd od).length = n := by
    have h : (create_synthetic_dataset nd od).length = nd.length + od.length := by
      simp [create_synthetic_dataset, generate_normal_vehicle_data,
        generate_overloaded_vehicle_data]
    omega
  have hperm : (sample_frac1 (create_synthetic_dataset nd od) idx).Perm
      (create_synthetic_dataset nd od) := by
    rw [sample_frac1_eq_selectRows]
    exact selectRows_perm _ idx (by rw [hlen]; exact hidx)
  apply validate_toDf_ok
  · intro r hr
    rcases mem_create_synthetic_dataset (hperm.mem_iff.mp hr) with
      ⟨q, hq, rfl⟩ | ⟨q, hq, rfl⟩
    · exact mkNormalRecord_valid q (hnd q hq)
    · exact mkOverloadedRecord_valid q (hod q hq)
  · have hne : nd ≠ [] := by
      intro h
      rw [h] at hndlen
      simp at hndlen
      omega
    obtain ⟨q, hq⟩ := List.exists_mem_of_ne_nil nd hne
    refine ⟨mkNormalRecord q, ?_, rfl⟩
    exact hperm.mem_iff.mpr
      (List.mem_append_left _ (List.mem_map_of_mem _ hq))
  · have hne : od ≠ [] := by
      intro h
      rw [h] at hodlen
      simp at hodlen
      omega
    obtain ⟨q, hq⟩ := List.exists_mem_of_ne_nil od hne
    refine ⟨mkOverloadedRecord q, ?_, rfl⟩
    exact hperm.mem_iff.mpr
      (List.mem_append_right _ (List.mem_map_of_mem _ hq))

/-- Witness for C4: a two-row dataset (one normal, one overloaded draw)
shuffled by the permutation `[1, 0]` validates. -/
theorem synthetic_dataset_validates_witness :
    validate_data
      (toDf (sample_frac1 (create_synthetic_dataset [wNormal] [wOver]) [1, 0]))
      = Except.ok true :=
  synthetic_dataset_validates 2 (by decide) [wNormal] [wOver] rfl rfl
    (by
      intro r hr
      simp only [List.mem_singleton] at hr
      subst hr
      unfold RawNormal.InRange
      decide)
    (by
      intro r hr
      simp only [List.mem_singleton] at hr
      subst hr
      unfold RawOverloaded.InRange
      decide)
    [1, 0] (by decide)

/-- C5: the configuration written by `save_model_artifacts` records
under `model_parameters` exactly the hyperparameters `train_model`
constructs the classifier with, under `feature_names` exactly the list
`main` assembles the feature matrix from (whose order is the order of
`featureRow`), and under `evaluation_metrics` exactly the metrics dict
it was handed. -/
theorem config_roundtrips_hyperparameters (m : Metrics) (d : String) :
    (save_config feature_names_main m d).model_parameters = train_model_params ∧
    (save_config feature_names_main m d).feature_names = feature_names_main ∧
    (save_config feature_names_main m d).evaluation_metrics = m ∧
    (∀ r : Record,
        featureRow r = feature_names_main.map (fun nm => colOfName nm r)) :=
  ⟨rfl, rfl, rfl, fun _ => rfl⟩

/-- C6: `main` splits before standardising: the scaler is fitted on the
raw training split only, and the test split and the hardcoded example
vectors are transformed with that same training-fitted scaler. -/
theorem scaler_fitted_on_train_only (sq : ℚ → ℚ) (df : List Record)
    (trainIdx testIdx : List ℕ) :
    (main_pipeline sq df trainIdx testIdx).X = df.map featureRow ∧
    (main_pipeline sq df trainIdx testIdx).X_train =
      selectRows (df.map featureRow) trainIdx ∧
    (main_pipeline sq df trainIdx testIdx).X_test =
      selectRows (df.map featureRow) testIdx ∧
    (main_pipeline sq df trainIdx testIdx).scaler =
      fitScaler sq ((main_pipeline sq df trainIdx testIdx).X_train) ∧
    (main_pipeline sq df trainIdx testIdx).X_test_scaled =
      (fitScaler sq ((main_pipeline sq df trainIdx testIdx).X_train)).transform
        ((main_pipeline sq df trainIdx testIdx).X_test) ∧
    (main_pipeline sq df trainIdx testIdx).examples_scaled =
      (fitScaler sq ((main_pipeline sq df trainIdx testIdx).X_train)).transform
        (test_cases.map testCaseFeatures) :=
  ⟨rfl, rfl, rfl, rfl, rfl, rfl⟩

/-- C7: any failure of the three steps of `save_model_artifacts`
propagates to the caller unchanged (logged and re-raised, never
swallowed, no retry), and `main` re-raises every pipeline exception. -/
theorem exceptions_propagate {E α : Type} (dm ds wc : Except E Unit)
    (pl : Except E α) (e : E) :
    (dm = Except.error e →
      save_model_artifacts dm ds wc = Except.error e) ∧
    (dm = Except.ok () → ds = Except.error e →
      save_model_artifacts dm ds wc = Except.error e) ∧
    (dm = Except.ok () → ds = Except.ok () → wc = Except.error e →
      save_model_artifacts dm ds wc = Except.error e) ∧
    (dm = Except.ok () → ds = Except.ok () → wc = Except.ok () →
      save_model_artifacts dm ds wc = Except.ok ()) ∧
    (pl = Except.error e → main_try pl = Except.error e) ∧
    (∀ a, pl = Except.ok a → main_try pl = Except.ok a) := by
  refine ⟨?_, ?_, ?_, ?_, ?_, ?_⟩ <;> intros <;> subst_vars <;> rfl

/-- Witness for C7: a concrete model-dump failure propagates, and a
concrete successful pipeline value passes through `main`. -/
theorem exceptions_propagate_witness :
    save_model_artifacts (Except.error 7 : Except ℕ Unit)
      (Except.ok ()) (Except.ok ()) = Except.error 7 ∧
    save_model_artifacts (Except.ok () : Except ℕ Unit)
      (Except.error 8) (Except.ok ()) = Except.error 8 ∧
    save_model_artifacts (Except.ok () : Except ℕ Unit)
      (Except.ok ()) (Except.error 9) = Except.error 9 ∧
    save_model_artifacts (Except.ok () : Except ℕ Unit)
      (Except.ok ()) (Except.ok ()) = Except.ok () ∧
    main_try (Except.error 7 : Except ℕ ℕ) = Except.error 7 ∧
    main_try (Except.ok 3 : Except ℕ ℕ) = Except.ok 3 :=
  ⟨(exceptions_propagate (Except.error 7) (Except.ok ()) (Except.ok ())
      (Except.ok (3 : ℕ)) 7).1 rfl,
   (exceptions_propagate (Except.ok ()) (Except.error 8) (Except.ok ())
      (Except.ok (3 : ℕ)) 8).2.1 rfl rfl,
   (exceptions_propagate (Except.ok ()) (Except.ok ()) (Except.error 9)
      (Except.ok (3 : ℕ)) 9).2.2.1 rfl rfl rfl,
   (exceptions_propagate (Except.ok ()) (Except.ok ()) (Except.ok ())
      (Except.ok (3 : ℕ)) 9).2.2.2.1 rfl rfl rfl,
   (exceptions_propagate (Except.ok () : Except ℕ Unit) (Except.ok ())
      (Except.ok ()) (Except.error 7 : Except ℕ ℕ) 7).2.2.2.2.1 rfl,
   (exceptions_propagate (Except.error 7) (Except.ok ()) (Except.ok ())
      (Except.ok (3 : ℕ)) 7).2.2.2.2.2 3 rfl⟩

/-- C8: no pipeline stage after generation mutates the dataset:
`validate_data` only reads its dataframe (the state-passing form
returns it unchanged along with the same verdict), and the
feature/label extraction of `main` leaves the record list unchanged. -/
theorem dataset_immutable (df : Df) (l : List Record) :
    (validate_dataS df).2 = df ∧
    (validate_dataS df).1 = validate_data df ∧
    (prepare_features l).2 = l ∧
    (prepare_features l).1 =
      (l.map featureRow, l.map (fun r => r.is_overloaded)) :=
  ⟨rfl, rfl, rfl, rfl⟩

/-- C9: `create_synthetic_dataset` yields exactly `n` records —
`⌊n/2⌋` with label 0 and `n − ⌊n/2⌋` with label 1 — and the final
shuffle along any permutation of the row indices is a permutation of
the concatenated rows. -/
theorem dataset_counts_and_shuffle (n : ℕ) (nd : List RawNormal)
    (od : List RawOverloaded)
    (hndlen : nd.length = n / 2) (hodlen : od.length = n - n / 2) :
    (create_synthetic_dataset nd od).length = n ∧
    (create_synthetic_dataset nd od).countP
      (fun r => r.is_overloaded == 0) = n / 2 ∧
    (create_synthetic_dataset nd od).countP
      (fun r => r.is_overloaded == 1) = n - n / 2 ∧
    (∀ idx, idx.Perm (List.range n) →
      (sample_frac1 (create_synthetic_dataset nd od) idx).Perm
        (create_synthetic_dataset nd od)) := by
  have hlen : (create_synthetic_dataset nd od).length = n := by
    have h : (create_synthetic_dataset nd od).length = nd.length + od.length := by
      simp [create_synthetic_dataset, generate_normal_vehicle_data,
        generate_overloaded_vehicle_data]
    omega
  refine ⟨hlen, ?_, ?_, ?_⟩
  · unfold create_synthetic_dataset generate_normal_vehicle_data
      generate_overloaded_vehicle_data
    rw [List.countP_append, List.countP_map, List.countP_map]
    have h1 : nd.countP ((fun r => r.is_overloaded == 0) ∘ mkNormalRecord)
        = nd.length :=
      List.countP_eq_length.mpr (fun a _ => by simp [mkNormalRecord])
    have h2 : od.countP ((fun r => r.is_overloaded == 0) ∘ mkOverloadedRecord)
        = 0 :=
      List.countP_eq_zero.mpr (fun a _ => by simp [mkOverloadedRecord])
    omega
  · unfold create_synthetic_dataset generate_normal_vehicle_data
      generate_overloaded_vehicle_data
    rw [List.countP_append, List.countP_map, List.countP_map]
    have h1 : nd.countP ((fun r => r.is_overloaded == 1) ∘ mkNormalRecord)
        = 0 :=
      List.countP_eq_zero.mpr (fun a _ => by simp [mkNormalRecord])
    have h2 : od.countP ((fun r => r.is_overloaded == 1) ∘ mkOverloadedRecord)
        = od.length :=
      List.countP_eq_length.mpr (fun a _ => by simp [mkOverloadedRecord])
    omega
  · intro idx hidx
    rw [sample_frac1_eq_selectRows]
    exact selectRows_perm _ idx (by rw [hlen]; exact hidx)

/-- Witness for C9: three samples split as one normal plus two
overloaded draws, shuffled by the permutation `[2, 0, 1]`. -/
theorem dataset_counts_and_shuffle_witness :
    (create_synthetic_dataset [wNormal] [wOver, wOver]).length = 3 ∧
    (create_synthetic_dataset [wNormal] [wOver, wOver]).countP
      (fun r => r.is_overloaded == 0) = 3 / 2 ∧
    (create_synthetic_dataset [wNormal] [wOver, wOver]).countP
      (fun r => r.is_overloaded == 1) = 3 - 3 / 2 ∧
    (sample_frac1 (create_synthetic_dataset [wNormal] [wOver, wOver])
      [2, 0, 1]).Perm (create_synthetic_dataset [wNormal] [wOver, wOver]) := by
  have h := dataset_counts_and_shuffle 3 [wNormal] [wOver, wOver] rfl rfl
  exact ⟨h.1, h.2.1, h.2.2.1, h.2.2.2 [2, 0, 1] (by decide)⟩

end EcoLogix
